import Mathlib

/-!
Verification of the glimmer-vm dynamic-content core against its source.

The definitions below are a shallow embedding of
`src/packages/htmlbars-object/lib/object.ts` (HTMLBarsObject's
`wrapMethod` / `wrapAccessor`, the insertion-normalization functions,
`AppendDynamicOpcode.evaluate`, `UpdateOpcode.evaluate` / `toJSON`) and of
`src/unnamed/part_000` (`OpenComponentOpcode.evaluate`).  Collaborators that
live outside the given sources (`ReferenceCache`, `Upsert`, `clear`,
`cautiousInsert` / `trustingInsert`, the VM surface) are modelled from the
specification, and are marked as such in their doc comments.
-/

namespace Glimmer

/-- The universe of JavaScript values the dynamic-content code can receive.
`safeString` models an object passing `isSafeString` (it exposes `toHTML`),
`node` models a DOM node passing `isNode`, and `obj` models any other object;
`obj none` is an object whose `toString` is not callable. -/
inductive JSValue where
  | null
  | undefined
  | boolVal (b : Bool)
  | num (n : Int)
  | str (s : String)
  | safeString (html : String)
  | node (id : Nat)
  | obj (toStr : Option String)
deriving DecidableEq, BEq, Repr

/-- Whether `typeof value.toString === 'function'` holds: true for every value
except `null`, `undefined` and an object without a callable `toString`. -/
def hasCallableToString : JSValue → Bool
  | JSValue.null => false
  | JSValue.undefined => false
  | JSValue.obj none => false
  | _ => true

/-- `isString` from upsert.ts (collaborator): `typeof value === 'string'`. -/
def isString : JSValue → Bool
  | JSValue.str _ => true
  | _ => false

/-- `isSafeString` from upsert.ts (collaborator): the trust-marker test. -/
def isSafeString : JSValue → Bool
  | JSValue.safeString _ => true
  | _ => false

/-- `isNode` from upsert.ts (collaborator). -/
def isNode : JSValue → Bool
  | JSValue.node _ => true
  | _ => false

/-- `value.toHTML()`: the textual payload of a trust-marked value. -/
def toHTML : JSValue → String
  | JSValue.safeString h => h
  | _ => ""

/-- `String(value)`: the generic JavaScript string conversion, on this value
universe. -/
def jsToString : JSValue → String
  | JSValue.null => "null"
  | JSValue.undefined => "undefined"
  | JSValue.boolVal true => "true"
  | JSValue.boolVal false => "false"
  | JSValue.num n => toString n
  | JSValue.str s => s
  | JSValue.safeString h => h
  | JSValue.node _ => "[object Node]"
  | JSValue.obj (some s) => s
  | JSValue.obj none => ""

/-- Source `isEmpty` (object.ts, content part):
`value === null || value === undefined || typeof value.toString !== 'function'`. -/
def isEmpty (v : JSValue) : Bool :=
  v == JSValue.null || v == JSValue.undefined || !(hasCallableToString v)

/-- Source `normalizeTextValue`: empty-ish values become `''`, everything else
is converted with `String(value)`. -/
def normalizeTextValue (v : JSValue) : String :=
  if isEmpty v then "" else jsToString v

/-- Source `normalizeTrustedValue`: the trusting normalization.  Returns the
JavaScript value the function returns (a string or a node). -/
def normalizeTrustedValue (v : JSValue) : JSValue :=
  if isEmpty v then JSValue.str ""
  else if isString v then v
  else if isSafeString v then JSValue.str (toHTML v)
  else if isNode v then v
  else JSValue.str (jsToString v)

/-- Source `normalizeValue`: the cautious normalization.  Returns the
JavaScript value the function returns (a string, a safe-string marker, or a
node). -/
def normalizeValue (v : JSValue) : JSValue :=
  if isEmpty v then JSValue.str ""
  else if isString v then v
  else if isSafeString v || isNode v then v
  else JSValue.str (jsToString v)

/-- The specification's closed Insertion variant:
Empty, Text (escaped on render), TrustedMarkup (rendered raw), Node. -/
inductive Insertion where
  | empty
  | text (s : String)
  | trustedMarkup (s : String)
  | node (id : Nat)
deriving DecidableEq, Repr

/-- Modelled from the spec: the Insertion denoted by a cautious-normalization
result, i.e. how `cautiousInsert` (upsert.ts, not under src/) renders it — a
string becomes escaped Text, a trust-marked value becomes its markup text
rendered unescaped, a node passes through, and empty content denotes Empty. -/
def cautiousInsertionSem : JSValue → Insertion
  | JSValue.str s => if s = "" then Insertion.empty else Insertion.text s
  | JSValue.safeString h => if h = "" then Insertion.empty else Insertion.trustedMarkup h
  | JSValue.node n => Insertion.node n
  | v => if jsToString v = "" then Insertion.empty else Insertion.text (jsToString v)

/-- Modelled from the spec: the Insertion denoted by a trusting-normalization
result, i.e. how `trustingInsert` (upsert.ts, not under src/) renders it — a
string becomes raw TrustedMarkup, a node passes through, and empty content
denotes Empty. -/
def trustingInsertionSem : JSValue → Insertion
  | JSValue.str s => if s = "" then Insertion.empty else Insertion.trustedMarkup s
  | JSValue.node n => Insertion.node n
  | v => if jsToString v = "" then Insertion.empty else Insertion.trustedMarkup (jsToString v)

/-- The two concrete opcode variants of the dynamic-content code. -/
inductive Mode where
  | cautious
  | trusting
deriving DecidableEq, Repr

/-- The variant's normalization function (`this.normalize` target). -/
def normalizeCode : Mode → JSValue → JSValue
  | Mode.cautious => normalizeValue
  | Mode.trusting => normalizeTrustedValue

/-- The variant's rendering interpretation of a normalized value. -/
def insertionSem : Mode → JSValue → Insertion
  | Mode.cautious => cautiousInsertionSem
  | Mode.trusting => trustingInsertionSem

/-- Modelled from the spec: a `Reference` (htmlbars-reference / glimmer
reference, not under src/) — a lazily evaluated value source with a
comparable version Tag; `isConst` is decidable without evaluating.  Time is
made explicit: `valueAt t` / `tagAt t` are what `.value()` and the Tag yield
at tick `t`. -/
structure Reference where
  isConst : Bool
  valueAt : Nat → JSValue
  tagAt : Nat → Nat

/-- Modelled from the spec: `ReferenceCache` over the mapped (normalized)
reference.  `map(reference, normalize)` propagates the inner Tag unchanged and
applies the variant's normalization to the inner value, so the cache stores
the underlying reference together with the variant whose normalization it was
mapped through.  `state` is `none` before the first read, and otherwise the
Tag captured at last read paired with the last computed value. -/
structure ReferenceCache where
  mode : Mode
  ref : Reference
  state : Option (Nat × JSValue)

/-- `new ReferenceCache(normalized)`: freshly constructed, nothing read yet. -/
def ReferenceCache.fresh (mode : Mode) (ref : Reference) : ReferenceCache :=
  { mode := mode, ref := ref, state := none }

/-- Result of one `peek` call: the value produced, the cache afterwards, and
how many times the wrapped (normalized) reference's `value()` was invoked. -/
structure PeekResult where
  value : JSValue
  cache : ReferenceCache
  reads : Nat

/-- Modelled from the spec: `cache.peek()` — on an initialized cache it
returns the last computed value with no recomputation and no side effect; on
a fresh cache it performs the first read implicitly. -/
def ReferenceCache.peek (c : ReferenceCache) (t : Nat) : PeekResult :=
  match c.state with
  | some (_, v) => { value := v, cache := c, reads := 0 }
  | none =>
      { value := normalizeCode c.mode (c.ref.valueAt t)
        cache := { c with state := some (c.ref.tagAt t, normalizeCode c.mode (c.ref.valueAt t)) }
        reads := 1 }

/-- Outcome classification of `cache.revalidate()`. -/
inductive RevalResult where
  | const
  | modified (v : JSValue)
deriving DecidableEq, Repr

/-- Modelled from the spec: `cache.revalidate()` — compare the reference's
current Tag with the stored Tag; equal means Const (stored value still valid,
cache untouched), unequal means recompute, store the new Tag and value, and
report Modified with the fresh value. -/
def ReferenceCache.revalidate (c : ReferenceCache) (t : Nat) : RevalResult × ReferenceCache :=
  match c.state with
  | some (tagSeen, _) =>
      if tagSeen = c.ref.tagAt t then (RevalResult.const, c)
      else
        (RevalResult.modified (normalizeCode c.mode (c.ref.valueAt t)),
         { c with state := some (c.ref.tagAt t, normalizeCode c.mode (c.ref.valueAt t)) })
  | none =>
      (RevalResult.modified (normalizeCode c.mode (c.ref.valueAt t)),
       { c with state := some (c.ref.tagAt t, normalizeCode c.mode (c.ref.valueAt t)) })

/-- Modelled from the spec: a `Cursor` — an insertion point given by a parent
element and an insert-before marker. -/
structure Cursor where
  element : Nat
  nextSibling : Nat
deriving DecidableEq, Repr

/-- Modelled from the spec: `Bounds` — the contiguous region an upsert
produced, identified by its parent element and its position marker. -/
structure BoundsState where
  parent : Nat
  marker : Nat
deriving DecidableEq, Repr

/-- Modelled from the spec: an `Upsert` — the result of one render/update
operation: the kind of content currently materialized and the Bounds
delimiting it. -/
structure UpsertState where
  kind : Insertion
  bounds : BoundsState
deriving DecidableEq, Repr

/-- Modelled from the spec: `cautiousInsert` (upsert.ts, not under src/) —
materialize the cautious interpretation of `value` at the cursor and return an
Upsert whose Bounds delimit exactly that content. -/
def cautiousInsert (cursor : Cursor) (value : JSValue) : UpsertState :=
  { kind := cautiousInsertionSem value
    bounds := { parent := cursor.element, marker := cursor.nextSibling } }

/-- Modelled from the spec: `trustingInsert` (upsert.ts, not under src/). -/
def trustingInsert (cursor : Cursor) (value : JSValue) : UpsertState :=
  { kind := trustingInsertionSem value
    bounds := { parent := cursor.element, marker := cursor.nextSibling } }

/-- The variant's `insert` hook: the cautious opcode classes call
`cautiousInsert`, the trusting ones `trustingInsert`. -/
def insertOf : Mode → Cursor → JSValue → UpsertState
  | Mode.cautious => cautiousInsert
  | Mode.trusting => trustingInsert

/-- Modelled from the spec: `upsert.update(newValue)` — attempt the in-place
mutation and report success as `some` (the mutated upsert, same Bounds) or
failure as `none`.  Textual content (Text or Empty) updates in place; trusted
markup updates in place only against trusted markup (both textual here); a
node succeeds only against the identical node; every other pairing fails. -/
def upsertUpdate (u : UpsertState) (newIns : Insertion) : Option UpsertState :=
  match u.kind, newIns with
  | Insertion.text _, Insertion.text s => some { u with kind := Insertion.text s }
  | Insertion.text _, Insertion.empty => some { u with kind := Insertion.empty }
  | Insertion.empty, Insertion.text s => some { u with kind := Insertion.text s }
  | Insertion.empty, Insertion.empty => some u
  | Insertion.trustedMarkup _, Insertion.trustedMarkup s =>
      some { u with kind := Insertion.trustedMarkup s }
  | Insertion.node n, Insertion.node m => if m = n then some u else none
  | _, _ => none

/-- Modelled from the spec: `clear(bounds)` — remove exactly the delimited
region and return the reusable insertion marker (the freed location). -/
def clearBounds (b : BoundsState) : Nat :=
  b.marker

/-- An updating opcode as registered by the append opcodes: the concrete
variant (`OptimizedCautiousUpdateOpcode` / `OptimizedTrustingUpdateOpcode`),
its guid, and the `cache` / `bounds` / `upsert` fields the constructor
receives (source `UpdateOpcode`, object.ts content part). -/
structure UpdateOpcode where
  guid : Nat
  mode : Mode
  cache : ReferenceCache
  bounds : BoundsState
  upsert : UpsertState

/-- Source `OptimizedCautiousAppendOpcode.updateWith` /
`OptimizedTrustingAppendOpcode.updateWith`: the cautious append variant
constructs the cautious update variant, the trusting one the trusting
variant, each carrying the cache, the Bounds and the Upsert. -/
def appendOpcodeUpdateWith :
    Mode → ReferenceCache → BoundsState → UpsertState → Nat → UpdateOpcode
  | Mode.cautious, cache, bounds, upsert, g =>
      { guid := g, mode := Mode.cautious, cache := cache, bounds := bounds, upsert := upsert }
  | Mode.trusting, cache, bounds, upsert, g =>
      { guid := g, mode := Mode.trusting, cache := cache, bounds := bounds, upsert := upsert }

/-- Modelled from the spec: the slice of the VM surface the append opcode
touches — the evaluation stack of references (`pop`), the current cursor
(`elements()`), the render range's bounds registrations (`newBounds`), the
updating-opcode list of the current update scope (`updateWith`), and the guid
counter the UpdatingOpcode base constructor draws from. -/
structure VMState where
  stack : List Reference
  cursor : Cursor
  elements : List BoundsState
  updating : List UpdateOpcode
  guidCounter : Nat

/-- Instrumentation of one `AppendDynamicOpcode.evaluate` run: how many times
the normalized reference's `value()` was invoked (directly or implicitly via
`cache.peek()`), and how many `ReferenceCache`s were created. -/
structure AppendTrace where
  normalizedReads : Nat
  cachesCreated : Nat
deriving DecidableEq, Repr

/-- The value / optional cache / read count produced by the branch on
`isConst(reference)` inside `AppendDynamicOpcode.evaluate`. -/
structure ValueAndCache where
  value : JSValue
  cache : Option ReferenceCache
  reads : Nat

/-- Source `AppendDynamicOpcode.evaluate` (object.ts content part), with the
concrete variant as `mode` and the tick made explicit: pop a reference,
normalize it through the variant's `normalize` (`map(reference, fn)`); if the
reference is constant read once via `normalized.value()` with no cache,
otherwise create a `ReferenceCache` and read via `cache.peek()`; insert the
value at the current cursor, register the new bounds, and — only when a cache
was created — append the variant's update opcode to the updating list.
Returns `none` only if the evaluation stack is empty (the popped reference
must exist). -/
def appendDynamicEvaluate (mode : Mode) (t : Nat) (vm : VMState) :
    Option (VMState × AppendTrace) :=
  match vm.stack with
  | [] => none
  | reference :: rest =>
      let vc : ValueAndCache :=
        if reference.isConst then
          { value := normalizeCode mode (reference.valueAt t), cache := none, reads := 1 }
        else
          let pk := (ReferenceCache.fresh mode reference).peek t
          { value := pk.value, cache := some pk.cache, reads := pk.reads }
      let upsert := insertOf mode vm.cursor vc.value
      let bounds := upsert.bounds
      let base : VMState :=
        { vm with stack := rest, elements := vm.elements ++ [bounds] }
      match vc.cache with
      | some cache =>
          some ({ base with
                    updating :=
                      base.updating ++
                        [appendOpcodeUpdateWith mode cache bounds upsert vm.guidCounter]
                    guidCounter := vm.guidCounter + 1 },
                { normalizedReads := vc.reads, cachesCreated := 1 })
      | none => some (base, { normalizedReads := vc.reads, cachesCreated := 0 })

/-- Instrumentation of one `UpdateOpcode.evaluate` tick: the bounds passed to
`clear` (if any), the cursor passed to the variant's `insert` (if any), and
the number of output-tree mutations performed. -/
structure UpdateTrace where
  clearedBounds : Option BoundsState
  insertCursor : Option Cursor
  treeMutations : Nat
deriving DecidableEq, Repr

/-- Source `UpdateOpcode.evaluate` (object.ts content part): revalidate the
cache; on Const do nothing; on Modified try `upsert.update(value)` in place,
and if it fails, clear the bounds, build a fresh Cursor from the freed
location, insert again there, and replace both `upsert` and `bounds`. -/
def UpdateOpcode.evaluateTick (op : UpdateOpcode) (t : Nat) :
    UpdateOpcode × UpdateTrace :=
  let rv := op.cache.revalidate t
  match rv.1 with
  | RevalResult.const =>
      ({ op with cache := rv.2 },
       { clearedBounds := none, insertCursor := none, treeMutations := 0 })
  | RevalResult.modified value =>
      match upsertUpdate op.upsert (insertionSem op.mode value) with
      | some u2 =>
          ({ op with cache := rv.2, upsert := u2, bounds := u2.bounds },
           { clearedBounds := none, insertCursor := none, treeMutations := 1 })
      | none =>
          ({ op with
              cache := rv.2,
              upsert := insertOf op.mode
                { element := op.bounds.parent, nextSibling := clearBounds op.bounds } value,
              bounds := (insertOf op.mode
                { element := op.bounds.parent, nextSibling := clearBounds op.bounds }
                value).bounds },
           { clearedBounds := some op.bounds,
             insertCursor :=
               some { element := op.bounds.parent, nextSibling := clearBounds op.bounds },
             treeMutations := 1 })

/-- The `type` tag of the concrete update variant. -/
def updateOpcodeType : Mode → String
  | Mode.cautious => "optimized-cautious-update"
  | Mode.trusting => "optimized-trusting-update"

/-- `JSON.stringify` on this value universe (a fixed textual form; the claims
only compare against this same function). -/
def jsonStringify : JSValue → String
  | JSValue.null => "null"
  | JSValue.undefined => "undefined"
  | JSValue.boolVal true => "true"
  | JSValue.boolVal false => "false"
  | JSValue.num n => toString n
  | JSValue.str s => "\"" ++ s ++ "\""
  | JSValue.safeString _ => "{}"
  | JSValue.node _ => "{}"
  | JSValue.obj _ => "{}"

/-- The debug snapshot `UpdateOpcode.toJSON` returns: guid, type tag, and
`details.lastValue`. -/
structure OpcodeJSON where
  guid : Nat
  typeTag : String
  lastValue : String
deriving DecidableEq, Repr

/-- Source `UpdateOpcode.toJSON` (object.ts content part): destructure guid,
type and cache, and return the snapshot with `details.lastValue` set to the
JSON stringification of `cache.peek()`.  The cache after the `peek` call and
the number of reference reads it performed are returned alongside to expose
the (absence of) side effects. -/
def UpdateOpcode.toJSONAt (op : UpdateOpcode) (t : Nat) :
    OpcodeJSON × UpdateOpcode × Nat :=
  let pk := op.cache.peek t
  ({ guid := op.guid, typeTag := updateOpcodeType op.mode
     lastValue := jsonStringify pk.value },
   { op with cache := pk.cache },
   pk.reads)

/-- Modelled from the spec: the slice of the (older) VM surface
`OpenComponentOpcode.evaluate` touches — `pushFrame(program)` pushes a frame
holding an opcode sequence (spec §4.6); `setTemplates` (not described in the
spec) is modelled as setting the VM's templates register.  The evaluation
stack and the rendered output are carried to show they are untouched. -/
structure CompVM where
  frames : List (List Nat)
  templates : Option Nat
  stack : List JSValue
  output : List Insertion
deriving DecidableEq, Repr

/-- A `ComponentInvocation`: its layout's opcodes (a function of the
environment, as `layout.opcodes(vm.env)` is) and its templates handle. -/
structure ComponentInvocation where
  layoutOps : Nat → List Nat
  templates : Nat

/-- `vm.pushFrame(opcodes)`. -/
def CompVM.pushFrame (vm : CompVM) (ops : List Nat) : CompVM :=
  { vm with frames := ops :: vm.frames }

/-- `vm.setTemplates(templates)`. -/
def CompVM.setTemplates (vm : CompVM) (tpl : Nat) : CompVM :=
  { vm with templates := some tpl }

/-- Source `OpenComponentOpcode.evaluate` (src/unnamed/part_000):
`vm.pushFrame(this.invocation.layout.opcodes(vm.env));
vm.setTemplates(this.invocation.templates);`. -/
def openComponentEvaluate (inv : ComponentInvocation) (env : Nat) (vm : CompVM) : CompVM :=
  (vm.pushFrame (inv.layoutOps env)).setTemplates inv.templates

/-- The value held in an object's `_super` slot.  Functions installed by the
wrappers are represented symbolically: `methodDelegate name` is the closure
`function(...args) { return home[name].apply(this, args) }` installed by
`wrapMethod`, `getterDelegate name` the closure installed by `wrapAccessor`;
`other` stands for any other function value, and `empty` for the initial
`_super = null`. -/
inductive SuperSlot where
  | empty
  | methodDelegate (name : String)
  | getterDelegate (name : String)
  | other (id : Nat)
deriving DecidableEq, Repr

/-- An object as seen by the wrappers: its `_super` slot plus arbitrary
further state `σ`. -/
structure JSObj (σ : Type) where
  superSlot : SuperSlot
  st : σ

/-- A JavaScript method body: reads and may mutate the receiver, may throw
(`Except.error`); the receiver state after the call is returned in either
case. -/
abbrev JSMethod (σ : Type) :=
  JSObj σ → List JSValue → Except String JSValue × JSObj σ

/-- A JavaScript getter body. -/
abbrev JSGetter (σ : Type) :=
  JSObj σ → Except String JSValue × JSObj σ

/-- Source `wrapMethod` (object.ts): if the method name is not present on the
superclass prototype (`home`), return the original unwrapped; otherwise return
a wrapper that saves `this._super`, installs the delegate to
`home[methodName]`, invokes the original, and restores the saved `_super` in a
`finally` — i.e. whether the original returned normally or threw.  The
superclass prototype is modelled by the list of names present on it
(`methodName in home`). -/
def wrapMethod (σ : Type) (homeNames : List String) (methodName : String)
    (original : JSMethod σ) : JSMethod σ :=
  if methodName ∈ homeNames then
    fun self args =>
      let out := original { self with superSlot := SuperSlot.methodDelegate methodName } args
      (out.1, { out.2 with superSlot := self.superSlot })
  else
    original

/-- A property descriptor found on the superclass prototype chain: either a
plain data property (no `get` key) or an accessor with a getter. -/
inductive PropEntry (σ : Type) where
  | dataProp (v : JSValue)
  | accessor (get : JSGetter σ)

/-- Source `getPropertyDescriptor` (object.ts): walk the prototype chain for
the first descriptor of `name`; the chain is modelled flattened into one
association list, shadowing resolved by the first match. -/
def getPropertyDescriptor (σ : Type) (home : List (String × PropEntry σ))
    (name : String) : Option (PropEntry σ) :=
  (home.find? (fun p => p.1 == name)).map (fun p => p.2)

/-- Source `wrapAccessor` (object.ts), restricted to the getter it installs:
if the superclass descriptor is missing or has no `get` key, the original
getter is installed unwrapped; otherwise the installed getter saves
`this._super`, installs the getter delegate, invokes the original, and
restores the saved `_super` in a `finally`. -/
def wrapAccessorGet (σ : Type) (home : List (String × PropEntry σ))
    (accessorName : String) (original : JSGetter σ) : JSGetter σ :=
  match getPropertyDescriptor σ home accessorName with
  | some (PropEntry.accessor _) =>
      fun self =>
        let out := original { self with superSlot := SuperSlot.getterDelegate accessorName }
        (out.1, { out.2 with superSlot := self.superSlot })
  | _ => original

/-- C6: for every value that is null, undefined, or lacks a callable
`toString`, both cautious and trusting normalization return the empty
representation `''` — the Empty insertion — as a defined fallback; both
functions are total Lean functions on the whole value universe, so neither
raises for any input. -/
theorem emptyishNormalizesToEmpty (v : JSValue)
    (h : v = JSValue.null ∨ v = JSValue.undefined ∨ hasCallableToString v = false) :
    normalizeValue v = JSValue.str "" ∧ normalizeTrustedValue v = JSValue.str "" ∧
    cautiousInsertionSem (normalizeValue v) = Insertion.empty ∧
    trustingInsertionSem (normalizeTrustedValue v) = Insertion.empty := by
  have hE : isEmpty v = true := by
    rcases h with h | h | h
    · subst h; rfl
    · subst h; rfl
    · simp [isEmpty, h]
  refine ⟨?_, ?_, ?_, ?_⟩ <;>
    simp [normalizeValue, normalizeTrustedValue, hE, cautiousInsertionSem, trustingInsertionSem]

/-- Witness for C6 at the concrete input `null`. -/
theorem emptyishNormalizesToEmpty_witness :
    (JSValue.null = JSValue.null ∨ JSValue.null = JSValue.undefined ∨
        hasCallableToString JSValue.null = false) ∧
    (normalizeValue JSValue.null = JSValue.str "" ∧
     normalizeTrustedValue JSValue.null = JSValue.str "" ∧
     cautiousInsertionSem (normalizeValue JSValue.null) = Insertion.empty ∧
     trustingInsertionSem (normalizeTrustedValue JSValue.null) = Insertion.empty) :=
  ⟨Or.inl rfl, emptyishNormalizesToEmpty JSValue.null (Or.inl rfl)⟩

/-- C5: for every value passing the trust-marker test `isSafeString`, the
trusting normalization returns exactly the marker's markup text
(`value.toHTML()`), and both modes denote the same Insertion, namely that
markup text rendered unescaped (TrustedMarkup) — the cautious normalization
passes the marked value through, whose rendering is the same unescaped markup
text. -/
theorem safeMarkupBothModes (v : JSValue) (h : isSafeString v = true) :
    normalizeTrustedValue v = JSValue.str (toHTML v) ∧
    cautiousInsertionSem (normalizeValue v) = trustingInsertionSem (normalizeTrustedValue v) ∧
    cautiousInsertionSem (normalizeValue v) =
      (if toHTML v = "" then Insertion.empty else Insertion.trustedMarkup (toHTML v)) := by
  cases v <;> first
    | exact ⟨rfl, rfl, rfl⟩
    | simp [isSafeString] at h

/-- Witness for C5 at the concrete trust-marked input with markup text
`<b>hi</b>`. -/
theorem safeMarkupBothModes_witness :
    isSafeString (JSValue.safeString "<b>hi</b>") = true ∧
    (normalizeTrustedValue (JSValue.safeString "<b>hi</b>") = JSValue.str "<b>hi</b>" ∧
     cautiousInsertionSem (normalizeValue (JSValue.safeString "<b>hi</b>")) =
       trustingInsertionSem (normalizeTrustedValue (JSValue.safeString "<b>hi</b>")) ∧
     cautiousInsertionSem (normalizeValue (JSValue.safeString "<b>hi</b>")) =
       Insertion.trustedMarkup "<b>hi</b>") :=
  ⟨rfl, safeMarkupBothModes (JSValue.safeString "<b>hi</b>") rfl⟩

/-- C4 counterexample: a generic object (not a bare string — `isString` is
false) whose `toString` yields markup is rendered as escaped Text by the
cautious mode but as raw TrustedMarkup by the trusting mode, so bare strings
are not the only input class on which the two modes produce different
Insertions. -/
theorem cautiousTrustingDivergenceCounterexample :
    isString (JSValue.obj (some "<b>x</b>")) = false ∧
    cautiousInsertionSem (normalizeValue (JSValue.obj (some "<b>x</b>"))) =
      Insertion.text "<b>x</b>" ∧
    trustingInsertionSem (normalizeTrustedValue (JSValue.obj (some "<b>x</b>"))) =
      Insertion.trustedMarkup "<b>x</b>" ∧
    cautiousInsertionSem (normalizeValue (JSValue.obj (some "<b>x</b>"))) ≠
      trustingInsertionSem (normalizeTrustedValue (JSValue.obj (some "<b>x</b>"))) := by
  refine ⟨rfl, rfl, rfl, ?_⟩
  decide

/-- C4 amended: for every input, either the two normalization modes produce
the same Insertion, or both normalizations return the very same string (a
bare string input, or the stringification fallback of any other value) and
the divergence is exactly that the cautious mode renders that string as
escaped Text while the trusting mode renders it as raw TrustedMarkup — the
string trust decision is the only behavioral difference, but it applies to
stringified fallback values as well as to bare strings. -/
theorem stringTrustIsOnlyDivergence (v : JSValue) :
    cautiousInsertionSem (normalizeValue v) = trustingInsertionSem (normalizeTrustedValue v)
    ∨ ∃ s, normalizeValue v = JSValue.str s ∧ normalizeTrustedValue v = JSValue.str s ∧
        cautiousInsertionSem (normalizeValue v) = Insertion.text s ∧
        trustingInsertionSem (normalizeTrustedValue v) = Insertion.trustedMarkup s := by
  have key : ∀ s : String,
      cautiousInsertionSem (JSValue.str s) = trustingInsertionSem (JSValue.str s) ∨
      (cautiousInsertionSem (JSValue.str s) = Insertion.text s ∧
       trustingInsertionSem (JSValue.str s) = Insertion.trustedMarkup s) := by
    intro s
    by_cases hs : s = ""
    · left
      simp [cautiousInsertionSem, trustingInsertionSem, hs]
    · right
      exact ⟨by simp [cautiousInsertionSem, hs], by simp [trustingInsertionSem, hs]⟩
  cases v with
  | null => exact Or.inl rfl
  | undefined => exact Or.inl rfl
  | boolVal b =>
      rcases key (jsToString (JSValue.boolVal b)) with h | h
      · exact Or.inl h
      · exact Or.inr ⟨jsToString (JSValue.boolVal b), rfl, rfl, h.1, h.2⟩
  | num n =>
      rcases key (jsToString (JSValue.num n)) with h | h
      · exact Or.inl h
      · exact Or.inr ⟨jsToString (JSValue.num n), rfl, rfl, h.1, h.2⟩
  | str s =>
      rcases key s with h | h
      · exact Or.inl h
      · exact Or.inr ⟨s, rfl, rfl, h.1, h.2⟩
  | safeString html => exact Or.inl rfl
  | node n => exact Or.inl rfl
  | obj o =>
      cases o with
      | none => exact Or.inl rfl
      | some s =>
          rcases key (jsToString (JSValue.obj (some s))) with h | h
          · exact Or.inl h
          · exact Or.inr ⟨jsToString (JSValue.obj (some s)), rfl, rfl, h.1, h.2⟩

/-- C1: for every constant reference popped by `AppendDynamicOpcode.evaluate`
(either variant), evaluation reads the value exactly once via the normalized
reference's `value()` (trace: one read), creates no `ReferenceCache` (trace:
zero caches), and leaves the updating-opcode list literally unchanged (hence
its length unchanged), while the content inserted is the variant's rendering
of the normalized value. -/
theorem constAppendNoRegistration (mode : Mode) (t : Nat) (ref : Reference)
    (rest : List Reference) (cur : Cursor) (elems : List BoundsState)
    (upd : List UpdateOpcode) (g : Nat) (hconst : ref.isConst = true) :
    appendDynamicEvaluate mode t
        { stack := ref :: rest, cursor := cur, elements := elems,
          updating := upd, guidCounter := g } =
      some ({ stack := rest, cursor := cur,
              elements :=
                elems ++ [(insertOf mode cur (normalizeCode mode (ref.valueAt t))).bounds],
              updating := upd, guidCounter := g },
            { normalizedReads := 1, cachesCreated := 0 }) := by
  simp [appendDynamicEvaluate, hconst]

/-- Witness for C1: a constant reference holding `"hello"`, cautious variant. -/
theorem constAppendNoRegistration_witness :
    (Reference.mk true (fun _ => JSValue.str "hello") (fun _ => 0)).isConst = true ∧
    appendDynamicEvaluate Mode.cautious 0
        { stack := [Reference.mk true (fun _ => JSValue.str "hello") (fun _ => 0)],
          cursor := { element := 0, nextSibling := 0 }, elements := [],
          updating := [], guidCounter := 0 } =
      some ({ stack := [], cursor := { element := 0, nextSibling := 0 },
              elements := [{ parent := 0, marker := 0 }],
              updating := [], guidCounter := 0 },
            { normalizedReads := 1, cachesCreated := 0 }) :=
  ⟨rfl,
   constAppendNoRegistration Mode.cautious 0
     (Reference.mk true (fun _ => JSValue.str "hello") (fun _ => 0))
     [] { element := 0, nextSibling := 0 } [] [] 0 rfl⟩

/-- C3: for every non-constant reference popped by
`AppendDynamicOpcode.evaluate`, evaluation creates exactly one
`ReferenceCache` over the normalized reference, obtains the initial value via
`cache.peek()` — performing the first read implicitly (trace: one read), and
so initializing the cache with the current Tag and the normalized value — and
appends exactly one update opcode of the same variant, carrying that cache,
the new Bounds and the Upsert returned by `insert`, to the updating-opcode
list. -/
theorem nonconstAppendRegistersUpdate (mode : Mode) (t : Nat) (ref : Reference)
    (rest : List Reference) (cur : Cursor) (elems : List BoundsState)
    (upd : List UpdateOpcode) (g : Nat) (hvar : ref.isConst = false) :
    appendDynamicEvaluate mode t
        { stack := ref :: rest, cursor := cur, elements := elems,
          updating := upd, guidCounter := g } =
      some ({ stack := rest, cursor := cur,
              elements :=
                elems ++ [(insertOf mode cur (normalizeCode mode (ref.valueAt t))).bounds],
              updating := upd ++
                [{ guid := g, mode := mode,
                   cache := { mode := mode, ref := ref,
                              state := some (ref.tagAt t, normalizeCode mode (ref.valueAt t)) },
                   bounds := (insertOf mode cur (normalizeCode mode (ref.valueAt t))).bounds,
                   upsert := insertOf mode cur (normalizeCode mode (ref.valueAt t)) }],
              guidCounter := g + 1 },
            { normalizedReads := 1, cachesCreated := 1 }) := by
  cases mode <;>
    simp [appendDynamicEvaluate, hvar, ReferenceCache.fresh, ReferenceCache.peek,
      appendOpcodeUpdateWith]

/-- Witness for C3: a variable reference currently holding `"a"`, cautious
variant — the cautious update opcode is registered with the initialized
cache. -/
theorem nonconstAppendRegistersUpdate_witness :
    (Reference.mk false (fun tk => if tk = 0 then JSValue.str "a" else JSValue.node 7)
        (fun tk => tk)).isConst = false ∧
    appendDynamicEvaluate Mode.cautious 0
        { stack := [Reference.mk false
            (fun tk => if tk = 0 then JSValue.str "a" else JSValue.node 7) (fun tk => tk)],
          cursor := { element := 0, nextSibling := 0 }, elements := [],
          updating := [], guidCounter := 0 } =
      some ({ stack := [], cursor := { element := 0, nextSibling := 0 },
              elements := [{ parent := 0, marker := 0 }],
              updating :=
                [{ guid := 0, mode := Mode.cautious,
                   cache := { mode := Mode.cautious,
                              ref := Reference.mk false
                                (fun tk => if tk = 0 then JSValue.str "a" else JSValue.node 7)
                                (fun tk => tk),
                              state := some (0, JSValue.str "a") },
                   bounds := { parent := 0, marker := 0 },
                   upsert := { kind := Insertion.text "a",
                               bounds := { parent := 0, marker := 0 } } }],
              guidCounter := 1 },
            { normalizedReads := 1, cachesCreated := 1 }) :=
  ⟨rfl,
   nonconstAppendRegistersUpdate Mode.cautious 0
     (Reference.mk false (fun tk => if tk = 0 then JSValue.str "a" else JSValue.node 7)
       (fun tk => tk))
     [] { element := 0, nextSibling := 0 } [] [] 0 rfl⟩

/-- C2: on a revalidation tick where the cache reports Modified (stored Tag
differs from the current Tag) and `upsert.update(value)` fails, the opcode
clears exactly its current bounds, builds a fresh Cursor from the freed
location (`bounds.parentElement()` and the marker `clear` returned), calls the
variant's `insert` again at that cursor, and replaces both its `upsert` and
its `bounds` with the new ones; the whole path is an ordinary total branch of
`evaluate`, not an error. -/
theorem modifiedUpdateFailureTeardownReinsert (op : UpdateOpcode) (t : Nat)
    (tagSeen : Nat) (v0 : JSValue)
    (hinit : op.cache.state = some (tagSeen, v0))
    (hdirty : tagSeen ≠ op.cache.ref.tagAt t)
    (hfail : upsertUpdate op.upsert
        (insertionSem op.mode (normalizeCode op.cache.mode (op.cache.ref.valueAt t))) = none) :
    op.evaluateTick t =
      ({ guid := op.guid, mode := op.mode,
         cache := { mode := op.cache.mode, ref := op.cache.ref,
                    state := some (op.cache.ref.tagAt t,
                                   normalizeCode op.cache.mode (op.cache.ref.valueAt t)) },
         bounds := (insertOf op.mode
           { element := op.bounds.parent, nextSibling := clearBounds op.bounds }
           (normalizeCode op.cache.mode (op.cache.ref.valueAt t))).bounds,
         upsert := insertOf op.mode
           { element := op.bounds.parent, nextSibling := clearBounds op.bounds }
           (normalizeCode op.cache.mode (op.cache.ref.valueAt t)) },
       { clearedBounds := some op.bounds,
         insertCursor :=
           some { element := op.bounds.parent, nextSibling := clearBounds op.bounds },
         treeMutations := 1 }) := by
  simp [UpdateOpcode.evaluateTick, ReferenceCache.revalidate, hinit, hdirty, hfail]

/-- Witness for C2: a cautious update opcode whose cache saw Tag 0 over text
content `"a"`; at tick 1 the Tag is 1 and the value is a node, so the
Text-to-Node update fails and the opcode tears down and reinserts. -/
theorem modifiedUpdateFailureTeardownReinsert_witness :
    (UpdateOpcode.mk 5 Mode.cautious
        { mode := Mode.cautious,
          ref := Reference.mk false
            (fun tk => if tk = 0 then JSValue.str "a" else JSValue.node 7) (fun tk => tk),
          state := some (0, JSValue.str "a") }
        { parent := 2, marker := 3 }
        { kind := Insertion.text "a", bounds := { parent := 2, marker := 3 } }).cache.state =
      some (0, JSValue.str "a") ∧
    (0 : Nat) ≠ 1 ∧
    (UpdateOpcode.mk 5 Mode.cautious
        { mode := Mode.cautious,
          ref := Reference.mk false
            (fun tk => if tk = 0 then JSValue.str "a" else JSValue.node 7) (fun tk => tk),
          state := some (0, JSValue.str "a") }
        { parent := 2, marker := 3 }
        { kind := Insertion.text "a", bounds := { parent := 2, marker := 3 } }).evaluateTick 1 =
      ({ guid := 5, mode := Mode.cautious,
         cache := { mode := Mode.cautious,
                    ref := Reference.mk false
                      (fun tk => if tk = 0 then JSValue.str "a" else JSValue.node 7)
                      (fun tk => tk),
                    state := some (1, JSValue.node 7) },
         bounds := { parent := 2, marker := 3 },
         upsert := { kind := Insertion.node 7, bounds := { parent := 2, marker := 3 } } },
       { clearedBounds := some { parent := 2, marker := 3 },
         insertCursor := some { element := 2, nextSibling := 3 },
         treeMutations := 1 }) :=
  ⟨rfl, by decide,
   modifiedUpdateFailureTeardownReinsert
     (UpdateOpcode.mk 5 Mode.cautious
       { mode := Mode.cautious,
         ref := Reference.mk false
           (fun tk => if tk = 0 then JSValue.str "a" else JSValue.node 7) (fun tk => tk),
         state := some (0, JSValue.str "a") }
       { parent := 2, marker := 3 }
       { kind := Insertion.text "a", bounds := { parent := 2, marker := 3 } })
     1 0 (JSValue.str "a") rfl (by decide) rfl⟩

/-- C7: on every tick where the stored Tag equals the current Tag the cache
reports Const and `UpdateOpcode.evaluate` is a no-op — the opcode (its bounds
and upsert included) is returned unchanged and the trace records no clear, no
insert and zero tree mutations — and the same holds again on a consecutive
such tick. -/
theorem constTickNoOp (op : UpdateOpcode) (t t2 : Nat) (tagSeen : Nat) (v0 : JSValue)
    (hinit : op.cache.state = some (tagSeen, v0))
    (h1 : tagSeen = op.cache.ref.tagAt t)
    (h2 : tagSeen = op.cache.ref.tagAt t2) :
    op.evaluateTick t =
      (op, { clearedBounds := none, insertCursor := none, treeMutations := 0 }) ∧
    (op.evaluateTick t).1.evaluateTick t2 =
      (op, { clearedBounds := none, insertCursor := none, treeMutations := 0 }) := by
  have e1 : op.evaluateTick t =
      (op, { clearedBounds := none, insertCursor := none, treeMutations := 0 }) := by
    simp [UpdateOpcode.evaluateTick, ReferenceCache.revalidate, hinit, h1]
  have e2 : op.evaluateTick t2 =
      (op, { clearedBounds := none, insertCursor := none, treeMutations := 0 }) := by
    simp [UpdateOpcode.evaluateTick, ReferenceCache.revalidate, hinit, h2]
  refine ⟨e1, ?_⟩
  rw [e1]
  exact e2

/-- Witness for C7: a trusting update opcode whose reference Tag stays 4 on
ticks 0 and 1 — both ticks are no-ops. -/
theorem constTickNoOp_witness :
    (UpdateOpcode.mk 1 Mode.trusting
        { mode := Mode.trusting,
          ref := Reference.mk false (fun _ => JSValue.str "a") (fun _ => 4),
          state := some (4, JSValue.str "a") }
        { parent := 0, marker := 0 }
        { kind := Insertion.trustedMarkup "a",
          bounds := { parent := 0, marker := 0 } }).cache.state =
      some (4, JSValue.str "a") ∧
    ((UpdateOpcode.mk 1 Mode.trusting
        { mode := Mode.trusting,
          ref := Reference.mk false (fun _ => JSValue.str "a") (fun _ => 4),
          state := some (4, JSValue.str "a") }
        { parent := 0, marker := 0 }
        { kind := Insertion.trustedMarkup "a",
          bounds := { parent := 0, marker := 0 } }).evaluateTick 0 =
      (UpdateOpcode.mk 1 Mode.trusting
        { mode := Mode.trusting,
          ref := Reference.mk false (fun _ => JSValue.str "a") (fun _ => 4),
          state := some (4, JSValue.str "a") }
        { parent := 0, marker := 0 }
        { kind := Insertion.trustedMarkup "a",
          bounds := { parent := 0, marker := 0 } },
       { clearedBounds := none, insertCursor := none, treeMutations := 0 }) ∧
     ((UpdateOpcode.mk 1 Mode.trusting
        { mode := Mode.trusting,
          ref := Reference.mk false (fun _ => JSValue.str "a") (fun _ => 4),
          state := some (4, JSValue.str "a") }
        { parent := 0, marker := 0 }
        { kind := Insertion.trustedMarkup "a",
          bounds := { parent := 0, marker := 0 } }).evaluateTick 0).1.evaluateTick 1 =
      (UpdateOpcode.mk 1 Mode.trusting
        { mode := Mode.trusting,
          ref := Reference.mk false (fun _ => JSValue.str "a") (fun _ => 4),
          state := some (4, JSValue.str "a") }
        { parent := 0, marker := 0 }
        { kind := Insertion.trustedMarkup "a",
          bounds := { parent := 0, marker := 0 } },
       { clearedBounds := none, insertCursor := none, treeMutations := 0 })) :=
  ⟨rfl,
   constTickNoOp
     (UpdateOpcode.mk 1 Mode.trusting
       { mode := Mode.trusting,
         ref := Reference.mk false (fun _ => JSValue.str "a") (fun _ => 4),
         state := some (4, JSValue.str "a") }
       { parent := 0, marker := 0 }
       { kind := Insertion.trustedMarkup "a", bounds := { parent := 0, marker := 0 } })
     0 1 4 (JSValue.str "a") rfl rfl rfl⟩

/-- C8: for every update opcode with an initialized cache, `toJSON` returns
the snapshot holding exactly its guid, its variant type tag and
`details.lastValue` equal to the JSON stringification of `cache.peek()`; the
opcode (its cache included) is returned unchanged and zero reference reads
are performed, so producing the snapshot neither recomputes nor mutates
anything. -/
theorem toJSONSnapshot (op : UpdateOpcode) (t : Nat) (tagSeen : Nat) (v0 : JSValue)
    (hinit : op.cache.state = some (tagSeen, v0)) :
    op.toJSONAt t =
      ({ guid := op.guid, typeTag := updateOpcodeType op.mode,
         lastValue := jsonStringify v0 },
       op, 0) := by
  simp [UpdateOpcode.toJSONAt, ReferenceCache.peek, hinit]

/-- Witness for C8 at the trusting update opcode with last cached value
`"a"`. -/
theorem toJSONSnapshot_witness :
    (UpdateOpcode.mk 1 Mode.trusting
        { mode := Mode.trusting,
          ref := Reference.mk false (fun _ => JSValue.str "a") (fun _ => 4),
          state := some (4, JSValue.str "a") }
        { parent := 0, marker := 0 }
        { kind := Insertion.trustedMarkup "a",
          bounds := { parent := 0, marker := 0 } }).cache.state =
      some (4, JSValue.str "a") ∧
    (UpdateOpcode.mk 1 Mode.trusting
        { mode := Mode.trusting,
          ref := Reference.mk false (fun _ => JSValue.str "a") (fun _ => 4),
          state := some (4, JSValue.str "a") }
        { parent := 0, marker := 0 }
        { kind := Insertion.trustedMarkup "a",
          bounds := { parent := 0, marker := 0 } }).toJSONAt 9 =
      ({ guid := 1, typeTag := "optimized-trusting-update", lastValue := "\"a\"" },
       UpdateOpcode.mk 1 Mode.trusting
         { mode := Mode.trusting,
           ref := Reference.mk false (fun _ => JSValue.str "a") (fun _ => 4),
           state := some (4, JSValue.str "a") }
         { parent := 0, marker := 0 }
         { kind := Insertion.trustedMarkup "a", bounds := { parent := 0, marker := 0 } },
       0) :=
  ⟨rfl,
   toJSONSnapshot
     (UpdateOpcode.mk 1 Mode.trusting
       { mode := Mode.trusting,
         ref := Reference.mk false (fun _ => JSValue.str "a") (fun _ => 4),
         state := some (4, JSValue.str "a") }
       { parent := 0, marker := 0 }
       { kind := Insertion.trustedMarkup "a", bounds := { parent := 0, marker := 0 } })
     9 4 (JSValue.str "a") rfl⟩

/-- C9: for every `ComponentInvocation`, `OpenComponentOpcode.evaluate`
performs exactly two VM mutations — it pushes one frame holding the
invocation's layout opcodes and sets the VM's templates to the invocation's
templates — and leaves the evaluation stack and the rendered output
untouched (it pops nothing and renders nothing itself). -/
theorem openComponentPushesFrameAndTemplates
    (inv : ComponentInvocation) (env : Nat) (vm : CompVM) :
    openComponentEvaluate inv env vm =
      { frames := inv.layoutOps env :: vm.frames,
        templates := some inv.templates,
        stack := vm.stack,
        output := vm.output } :=
  rfl

/-- A getter body that reports whether `this._super` was set when it ran:
used to observe, from the outside, whether the wrapper installed a
delegate. -/
def superProbeGetter : JSGetter Unit := fun self =>
  (Except.ok (JSValue.str (match self.superSlot with
      | SuperSlot.empty => "super-unset"
      | _ => "super-set")), self)

/-- C10 counterexample: the superclass prototype carries the name `x` as a
plain data property (no getter), so the name is present; yet `wrapAccessor`
installs the computed accessor's getter unwrapped, and invoking it never sets
`this._super` — the getter observes the slot still unset — contradicting the
claim that every accessor overriding a present name gets the
set-delegate/restore wrapper. -/
theorem accessorOverDataPropCounterexample :
    (getPropertyDescriptor Unit [("x", PropEntry.dataProp (JSValue.num 42))] "x").isSome =
      true ∧
    wrapAccessorGet Unit [("x", PropEntry.dataProp (JSValue.num 42))] "x"
        superProbeGetter = superProbeGetter ∧
    (superProbeGetter { superSlot := SuperSlot.empty, st := () }).1 =
      Except.ok (JSValue.str "super-unset") :=
  ⟨rfl, rfl, rfl⟩

/-- C10 amended: a method overriding a name present on the superclass
prototype is wrapped so that each invocation runs the original with
`this._super` set to the delegate to the superclass implementation, and the
previous `_super` is restored when the call completes, whether the original
returned normally or threw (the returned receiver state always carries the
restored slot); a method whose name the superclass lacks is installed
unwrapped.  An accessor receives the same wrapper exactly when the
superclass descriptor for the name exposes a getter; when the superclass has
no such getter — the name absent, or present only as a plain data property —
the original getter is installed unwrapped. -/
theorem wrapSuperDiscipline (σ : Type) (homeNames : List String)
    (home : List (String × PropEntry σ)) (methodName accessorName : String)
    (m : JSMethod σ) (a : JSGetter σ) (self : JSObj σ) (args : List JSValue) :
    (methodName ∈ homeNames →
      wrapMethod σ homeNames methodName m self args =
        ((m { self with superSlot := SuperSlot.methodDelegate methodName } args).1,
         { (m { self with superSlot := SuperSlot.methodDelegate methodName } args).2 with
             superSlot := self.superSlot })) ∧
    (methodName ∉ homeNames → wrapMethod σ homeNames methodName m = m) ∧
    (∀ g, getPropertyDescriptor σ home accessorName = some (PropEntry.accessor g) →
      wrapAccessorGet σ home accessorName a self =
        ((a { self with superSlot := SuperSlot.getterDelegate accessorName }).1,
         { (a { self with superSlot := SuperSlot.getterDelegate accessorName }).2 with
             superSlot := self.superSlot })) ∧
    ((∀ g, getPropertyDescriptor σ home accessorName ≠ some (PropEntry.accessor g)) →
      wrapAccessorGet σ home accessorName a = a) := by
  refine ⟨?_, ?_, ?_, ?_⟩
  · intro hmem
    simp only [wrapMethod, if_pos hmem]
  · intro hmem
    simp only [wrapMethod, if_neg hmem]
  · intro g hacc
    simp only [wrapAccessorGet, hacc]
  · intro hnone
    rcases hd : getPropertyDescriptor σ home accessorName with _ | entry
    · simp only [wrapAccessorGet, hd]
    · cases entry with
      | dataProp v => simp only [wrapAccessorGet, hd]
      | accessor g => exact absurd hd (hnone g)

/-- Witness for C10 amended, exercising all four branches at concrete
inputs: a wrapped method over a present name (the probe observes the
delegate installed and the slot restored afterwards), an unwrapped method
over an absent name, a wrapped getter over a superclass getter, and an
unwrapped getter over an empty superclass. -/
theorem wrapSuperDiscipline_witness :
    (wrapMethod Unit ["m"] "m"
        (fun self _ =>
          (Except.ok (JSValue.str (match self.superSlot with
              | SuperSlot.methodDelegate _ => "delegate-installed"
              | _ => "no-delegate")), self))
        { superSlot := SuperSlot.other 9, st := () } [] =
      (Except.ok (JSValue.str "delegate-installed"),
       { superSlot := SuperSlot.other 9, st := () })) ∧
    (wrapMethod Unit [] "m"
        (fun self _ =>
          (Except.ok (JSValue.str (match self.superSlot with
              | SuperSlot.methodDelegate _ => "delegate-installed"
              | _ => "no-delegate")), self)) =
      (fun self _ =>
        (Except.ok (JSValue.str (match self.superSlot with
            | SuperSlot.methodDelegate _ => "delegate-installed"
            | _ => "no-delegate")), self))) ∧
    (wrapAccessorGet Unit
        [("g", PropEntry.accessor (fun (self : JSObj Unit) => (Except.ok JSValue.null, self)))]
        "g" (fun self => (Except.ok (JSValue.num 1), self))
        { superSlot := SuperSlot.other 9, st := () } =
      (Except.ok (JSValue.num 1), { superSlot := SuperSlot.other 9, st := () })) ∧
    (wrapAccessorGet Unit [] "g" (fun self => (Except.ok (JSValue.num 1), self)) =
      (fun self => (Except.ok (JSValue.num 1), self))) := by
  refine ⟨?_, ?_, ?_, ?_⟩
  · exact (wrapSuperDiscipline Unit ["m"] [] "m" "g"
      (fun self _ =>
        (Except.ok (JSValue.str (match self.superSlot with
            | SuperSlot.methodDelegate _ => "delegate-installed"
            | _ => "no-delegate")), self))
      (fun self => (Except.ok (JSValue.num 1), self))
      { superSlot := SuperSlot.other 9, st := () } []).1 (by decide)
  · exact (wrapSuperDiscipline Unit [] [] "m" "g"
      (fun self _ =>
        (Except.ok (JSValue.str (match self.superSlot with
            | SuperSlot.methodDelegate _ => "delegate-installed"
            | _ => "no-delegate")), self))
      (fun self => (Except.ok (JSValue.num 1), self))
      { superSlot := SuperSlot.other 9, st := () } []).2.1 (by decide)
  · exact (wrapSuperDiscipline Unit []
      [("g", PropEntry.accessor (fun (self : JSObj Unit) => (Except.ok JSValue.null, self)))]
      "m" "g"
      (fun self _ =>
        (Except.ok (JSValue.str (match self.superSlot with
            | SuperSlot.methodDelegate _ => "delegate-installed"
            | _ => "no-delegate")), self))
      (fun self => (Except.ok (JSValue.num 1), self))
      { superSlot := SuperSlot.other 9, st := () } []).2.2.1
      (fun (self : JSObj Unit) => (Except.ok JSValue.null, self)) rfl
  · exact (wrapSuperDiscipline Unit [] [] "m" "g"
      (fun self _ =>
        (Except.ok (JSValue.str (match self.superSlot with
            | SuperSlot.methodDelegate _ => "delegate-installed"
            | _ => "no-delegate")), self))
      (fun self => (Except.ok (JSValue.num 1), self))
      { superSlot := SuperSlot.other 9, st := () } []).2.2.2
      (by intro g h; simp [getPropertyDescriptor] at h)

end Glimmer
